import Mathlib

/-!
# RetailOps pipeline — shallow embedding and verification

A shallow embedding of the RetailOps demand-forecasting / replenishment /
pricing pipeline (the `forecasting`, `replenishment` and `pricing-strategy`
servers and the client orchestrator).  Python floats are modelled as `ℚ`,
Python `round(x, n)` as rounding of `x * 10^n` to the nearest integer,
Python `int(x)` as truncation toward zero, and Python dictionaries as
association lists.  Fallible code (`KeyError`, `ZeroDivisionError`) is
modelled with `Except String`.  The optional language-model narrative calls
are modelled by an abstract oracle `NarrGen`; each stage computes its
numbers first and attaches the narrative text afterwards, exactly as the
source graphs do (the narrative node is the last node of every graph).
-/

namespace RetailOps

/-- Python `round(x, 2)` (to two decimals), modelled over `ℚ`. -/
def round2 (q : ℚ) : ℚ := (round (q * 100) : ℤ) / 100

/-- Python `round(x, 1)` (to one decimal), modelled over `ℚ`. -/
def round1 (q : ℚ) : ℚ := (round (q * 10) : ℤ) / 10

/-- Python `round(x)` (to an integer), modelled over `ℚ`. -/
def round0 (q : ℚ) : ℚ := (round q : ℤ)

/-- Python `int(x)`: truncation toward zero. -/
def pyInt (q : ℚ) : ℤ := if q < 0 then ⌈q⌉ else ⌊q⌋

/-- Python `needle in hay` for strings: substring test. -/
def pyIn (needle hay : String) : Bool :=
  (List.range (hay.data.length + 1)).any (fun i => needle.data.isPrefixOf (hay.data.drop i))

/-- Arithmetic mean of a list of rationals (`pandas` `Series.mean`). -/
def listMean (l : List ℚ) : ℚ := l.sum / l.length

/-- The last `n` elements of a list (`DataFrame.tail(n)`). -/
def lastN (n : ℕ) (l : List α) : List α := l.drop (l.length - n)

/-- Abstract narrative generation: stands for the language-model call of each
stage together with its deterministic local fallback.  Purely cosmetic. -/
structure NarrGen where
  forecastNarr : String → ℚ → ℚ → ℚ → ℚ → Option String → String
  replNarr : ℤ → String → String → String
  pricingNarr : String → ℚ → ℚ → ℚ → String → String

/-- The all-empty narrative oracle (used to instantiate witnesses). -/
def constNarr : NarrGen :=
  { forecastNarr := fun _ _ _ _ _ _ => ""
    replNarr := fun _ _ _ => ""
    pricingNarr := fun _ _ _ _ _ => "" }

/-! ## Forecasting server (`servers/forecasting/server.py`) -/

/-- One row of `sales_history.csv` (only the columns the server reads). -/
structure SalesRow where
  category : String
  sales : ℚ
  deriving DecidableEq

/-- One entry of the event calendar `events.json`.  The source stores a date
string and computes `(event_date - datetime.now()).days`; we model that
signed day difference directly as `daysUntil`, so a calendar together with a
current date is one `List EventEntry`. -/
structure EventEntry where
  name : String
  daysUntil : ℤ
  multiplier : ℚ
  deriving DecidableEq

/-- The surge-profile table `surge_profile.json`: event name ↦ category ↦ surge. -/
def SurgeTable := List (String × List (String × ℚ))

/-- `simple_moving_average(category, days=30)`: mean of the last `days` sales
rows for the category, rounded to two decimals; `none` when the category has
no rows at all. -/
def simple_moving_average (sales : List SalesRow) (category : String)
    (days : ℕ := 30) : Option ℚ :=
  let filtered := sales.filter (fun r => r.category = category)
  if filtered.isEmpty then none
  else some (round2 (listMean ((lastN days filtered).map (·.sales))))

/-- `get_season_multiplier()`: return the first calendar entry at most 180
days ahead (and not past), else no event and multiplier 1. -/
def get_season_multiplier : List EventEntry → Option String × ℚ
  | [] => (none, 1)
  | e :: rest =>
    if 0 ≤ e.daysUntil ∧ e.daysUntil ≤ 180 then (some e.name, e.multiplier)
    else get_season_multiplier rest

/-- `get_historical_surge(category, event_name)`: per-event per-category
surge, defaulting to 1.  (`if event_name and event_name in surge_profiles`:
a `None` or empty event name is falsy.) -/
def get_historical_surge (surge : SurgeTable) (category : String) :
    Option String → ℚ
  | some n =>
    if n = "" then 1
    else match surge.lookup n with
      | some profile => (profile.lookup category).getD 1
      | none => 1
  | none => 1

/-- The numeric part of a `getForecast` result. -/
structure ForecastNums where
  category : String
  base_forecast : ℚ
  seasonal_multiplier : ℚ
  historical_surge_factor : ℚ
  final_forecast : ℚ
  event : Option String
  deriving DecidableEq

/-- Numeric core of the `getForecast` tool.  `days_ahead` is accepted but,
as in the source, never used: `simple_moving_average` is called with its
default window. -/
def getForecastCore (sales : List SalesRow) (events : List EventEntry)
    (surge : SurgeTable) (category : String) (_days_ahead : ℕ) :
    Except String ForecastNums :=
  match simple_moving_average sales category with
  | none => .error ("No data found for category '" ++ category ++ "'.")
  | some base =>
    let sm := get_season_multiplier events
    let hist := get_historical_surge surge category sm.1
    let final := round2 (base * sm.2 * hist)
    .ok { category := category, base_forecast := base,
          seasonal_multiplier := sm.2, historical_surge_factor := hist,
          final_forecast := final, event := sm.1 }

/-- Full `getForecast` tool: numbers plus narrative. -/
def getForecast (g : NarrGen) (sales : List SalesRow) (events : List EventEntry)
    (surge : SurgeTable) (category : String) (days_ahead : ℕ) :
    Except String (ForecastNums × String) :=
  (getForecastCore sales events surge category days_ahead).map fun f =>
    (f, g.forecastNarr f.category f.base_forecast f.seasonal_multiplier
          f.historical_surge_factor f.final_forecast f.event)

/-! ## Replenishment server (`servers/replenishment/server.py`) -/

/-- Input of `getReplenishmentDecision`, flattened from the nested
`{forecast, inventory, supplier}` dictionary the tool receives. -/
structure ReplInput where
  forecasted_demand : ℚ
  avg_daily_demand : ℚ
  demand_volatility : String
  event_name : Option String
  days_to_event : Option ℤ
  current_stock : ℤ
  in_transit_stock : ℤ
  lead_time_days : ℤ
  minimum_order_quantity : ℤ
  deriving DecidableEq

/-- `multiplier_map = {"low": 1.1, "medium": 1.25, "high": 1.4}`; a plain
subscript, so an unknown label raises `KeyError`. -/
def volatilityMultiplier : String → Option ℚ
  | "low" => some (11/10)
  | "medium" => some (5/4)
  | "high" => some (7/5)
  | _ => none

/-- The numeric fields of `ReplenishmentState` after the graph has run. -/
structure ReplNums where
  volatility_multiplier : ℚ
  festival_multiplier : ℚ
  effective_stock : ℤ
  stock_runway_days : ℚ
  safety_stock : ℚ
  reorder_qty : ℤ
  reorder_timing : String
  stockout_risk : String
  deriving DecidableEq

/-- Numeric core of the replenishment graph: the nodes `demand_risk`,
`festival`, `inventory`, `safety`, `reorder` and `timing` in sequence.
Errors model the Python exceptions: `KeyError` on an unknown volatility
label, `ZeroDivisionError` when the average daily demand is zero. -/
def runReplenishmentCore (inp : ReplInput) : Except String ReplNums :=
  match volatilityMultiplier inp.demand_volatility with
  | none => .error ("KeyError: '" ++ inp.demand_volatility ++ "'")
  | some vm =>
    let fm : ℚ :=
      match inp.days_to_event with
      | some d => if d ≤ inp.lead_time_days then 6/5 else 1
      | none => 1
    if inp.avg_daily_demand = 0 then .error "ZeroDivisionError"
    else
      let effective := inp.current_stock + inp.in_transit_stock
      let runway := round1 ((effective : ℚ) / inp.avg_daily_demand)
      let safety := round0 (inp.avg_daily_demand * (inp.lead_time_days : ℚ) * vm * fm)
      let raw := max 0 (pyInt (inp.forecasted_demand + safety - (effective : ℚ)))
      let reorder := if raw > 0 then max raw inp.minimum_order_quantity else raw
      let tr :=
        if runway < (inp.lead_time_days : ℚ) then ("immediate", "high")
        else if runway < 30 then ("soon", "medium")
        else ("defer", "low")
      .ok { volatility_multiplier := vm, festival_multiplier := fm,
            effective_stock := effective, stock_runway_days := runway,
            safety_stock := safety, reorder_qty := reorder,
            reorder_timing := tr.1, stockout_risk := tr.2 }

/-- Full `getReplenishmentDecision` tool: numbers plus narrative. -/
def runReplenishment (g : NarrGen) (inp : ReplInput) :
    Except String (ReplNums × String) :=
  (runReplenishmentCore inp).map fun r =>
    (r, g.replNarr r.reorder_qty r.reorder_timing r.stockout_risk)

/-! ## Pricing-strategy server (`servers/pricing-strategy/server.py`) -/

/-- One category's entry of `price_elasticity.json`; each field is read with
its own `.get(..., default)`, so each may be missing independently. -/
structure ElasticityEntry where
  elasticity : Option ℚ
  base_margin : Option ℚ
  min_margin : Option ℚ
  max_discount : Option ℚ
  deriving DecidableEq

/-- One category's entry of `competitor_prices.json`. -/
structure CompetitorEntry where
  competitor_avg_price : Option ℚ
  price_difference_pct : Option ℚ
  deriving DecidableEq

/-- Input of `getPricingStrategy`: every field beyond the category is read
with `.get`, so each may be absent. -/
structure PricingInput where
  category : String
  current_price : Option ℚ
  forecasted_demand : Option ℚ
  inventory_level : Option ℚ
  target_profit_pct : Option ℚ
  deriving DecidableEq

/-- The numeric fields of `PricingState` after the graph has run.
`recommended_before_floor` and `recommended_raw` are the local
`recommended_price` of `pricing_decision_node` just before and just after
the minimum-margin clamp (the returned `recommended_price` is the rounded
raw value). -/
structure PricingNums where
  category : String
  current_price : ℚ
  forecasted_demand : ℚ
  inventory_level : ℚ
  target_profit_pct : ℚ
  elasticity : ℚ
  base_margin : ℚ
  min_margin : ℚ
  max_discount : ℚ
  competitor_price : ℚ
  price_difference_pct : ℚ
  competitor_position : String
  inventory_ratio_pressure : ℚ
  inventory_ratio_decision : ℚ
  recommended_before_floor : ℚ
  recommended_raw : ℚ
  recommended_price : ℚ
  price_change_pct : ℚ
  expected_demand_change : ℚ
  expected_revenue_change : ℚ
  expected_profit_change : ℚ
  recommendation_type : String
  deriving DecidableEq

/-- The values resolved by `load_category_data_node`: the category's table
entries with their per-key defaults, plus the input fields with their
`.get` defaults. -/
structure PricingData where
  category : String
  elasticity : ℚ
  base_margin : ℚ
  min_margin : ℚ
  max_discount : ℚ
  competitor_price : ℚ
  price_difference_pct : ℚ
  current_price : ℚ
  forecasted_demand : ℚ
  inventory_level : ℚ
  target_profit_pct : ℚ
  deriving DecidableEq

/-- `load_category_data_node`. -/
def load_category_data (etab : List (String × ElasticityEntry))
    (ctab : List (String × CompetitorEntry)) (inp : PricingInput) :
    PricingData :=
  let ce := (etab.lookup inp.category).getD ⟨none, none, none, none⟩
  let cc := (ctab.lookup inp.category).getD ⟨none, none⟩
  let comp := cc.competitor_avg_price.getD (inp.current_price.getD 1000)
  { category := inp.category
    elasticity := ce.elasticity.getD (-(3/2))
    base_margin := ce.base_margin.getD (1/5)
    min_margin := ce.min_margin.getD (3/20)
    max_discount := ce.max_discount.getD (1/5)
    competitor_price := comp
    price_difference_pct := cc.price_difference_pct.getD 0
    current_price := inp.current_price.getD (comp * (11/10))
    forecasted_demand := inp.forecasted_demand.getD 100
    inventory_level := inp.inventory_level.getD 200
    target_profit_pct := inp.target_profit_pct.getD 0 }

/-- `analyze_competitor_position_node`. -/
def analyze_competitor_position (diff : ℚ) : String :=
  if diff > 15 then "overpriced"
  else if diff > 5 then "slightly_high"
  else if diff < -5 then "undervalued"
  else "competitive"

/-- The guarded inventory-to-demand ratio
(`inventory / forecasted if forecasted > 0 else 1.0`), computed identically
in `inventory_pressure_node` and in `pricing_decision_node`. -/
def inventory_ratio (inv fd : ℚ) : ℚ := if fd > 0 then inv / fd else 1

/-- Factor 1 of `pricing_decision_node`: competitor positioning. -/
def priceFactor1 (d : PricingData) (pos : String) : ℚ × ℚ × String :=
  if pos = "overpriced" then
    let red := min (1/10) d.max_discount
    (d.current_price * (1 - red), -red * 100, "discount")
  else if pos = "undervalued" ∧ d.target_profit_pct > 0 then
    let inc := min (1/20) (d.target_profit_pct / 100)
    (d.current_price * (1 + inc), inc * 100, "increase")
  else (d.current_price, 0, "maintain")

/-- Factor 2 of `pricing_decision_node`: inventory pressure. -/
def priceFactor2 (d : PricingData) (ratio : ℚ) (s1 : ℚ × ℚ × String) :
    ℚ × ℚ × String :=
  if ratio > 2 then
    let dc := min (2/25) d.max_discount
    let np := d.current_price * (1 - dc)
    if np < s1.1 ∨ s1.2.2 = "maintain" then (np, -dc * 100, "clearance")
    else s1
  else if ratio < 1/2 then
    let inc := min (1/20)
      (if d.target_profit_pct > 0 then d.target_profit_pct / 100 else 3/100)
    let np := d.current_price * (1 + inc)
    if np > s1.1 then (np, inc * 100, "premium") else s1
  else s1

/-- Factor 3 of `pricing_decision_node`: target-profit optimization.  The
unguarded division `margin_gap / (1 - required_margin)` raises
`ZeroDivisionError` when the required margin is exactly 1. -/
def priceFactor3 (d : PricingData) (s2 : ℚ × ℚ × String) :
    Except String (ℚ × ℚ × String) :=
  if d.target_profit_pct > 0 ∧ s2.2.2 = "maintain" then
    let required := d.target_profit_pct / 100 + d.min_margin
    if required > d.base_margin then
      if required = 1 then .error "ZeroDivisionError"
      else
        let pinc := min ((required - d.base_margin) / (1 - required)) (1/10)
        .ok (d.current_price * (1 + pinc), pinc * 100, "optimize")
    else .ok s2
  else .ok s2

/-- The minimum-margin price floor of `pricing_decision_node`: clamp to
`cost / (1 - min_margin)` and flag `"floor"` when violated. -/
def priceFloorClamp (d : PricingData) (s : ℚ × ℚ × String) :
    ℚ × ℚ × String :=
  let cost := d.current_price * (1 - d.base_margin)
  let minp := cost / (1 - d.min_margin)
  if s.1 < minp then
    (minp, ((minp - d.current_price) / d.current_price) * 100, "floor")
  else s

/-- Assemble the final `PricingState` fields from the loaded data, the
chosen recommendation `s` (before the floor clamp) and the clamped
recommendation `s4`, including the expected-impact computations that close
`pricing_decision_node`. -/
def mkPricingNums (d : PricingData) (pos : String) (ratio_ip ratio : ℚ)
    (s s4 : ℚ × ℚ × String) : PricingNums :=
  let cost := d.current_price * (1 - d.base_margin)
  let pcd := s4.2.1 / 100
  let edc := d.elasticity * pcd
  let nd := d.forecasted_demand * (1 + edc)
  let cr := d.current_price * d.forecasted_demand
  let nr := s4.1 * nd
  let erc := if cr > 0 then ((nr - cr) / cr) * 100 else 0
  let cp := d.current_price * d.forecasted_demand * d.base_margin
  let nm := if s4.1 > 0 then 1 - cost / s4.1 else d.base_margin
  let npr := s4.1 * nd * nm
  let epc := if cp > 0 then ((npr - cp) / cp) * 100 else 0
  { category := d.category, current_price := d.current_price,
    forecasted_demand := d.forecasted_demand,
    inventory_level := d.inventory_level,
    target_profit_pct := d.target_profit_pct,
    elasticity := d.elasticity, base_margin := d.base_margin,
    min_margin := d.min_margin, max_discount := d.max_discount,
    competitor_price := d.competitor_price,
    price_difference_pct := d.price_difference_pct,
    competitor_position := pos, inventory_ratio_pressure := ratio_ip,
    inventory_ratio_decision := ratio,
    recommended_before_floor := s.1, recommended_raw := s4.1,
    recommended_price := round2 s4.1,
    price_change_pct := round2 s4.2.1,
    expected_demand_change := round1 (edc * 100),
    expected_revenue_change := round1 erc,
    expected_profit_change := round1 epc,
    recommendation_type := s4.2.2 }

/-- Numeric core of the pricing graph: the nodes `load_data`,
`competitor_analysis`, `elasticity_analysis`, `inventory_analysis` and
`pricing_decision` in sequence.  The unguarded division
`cost / (1 - min_margin)` of the floor computation is modelled as
`ZeroDivisionError` when the minimum margin is exactly 1. -/
def runPricingCore (etab : List (String × ElasticityEntry))
    (ctab : List (String × CompetitorEntry)) (inp : PricingInput) :
    Except String PricingNums :=
  let d := load_category_data etab ctab inp
  let pos := analyze_competitor_position d.price_difference_pct
  let ratio_ip := inventory_ratio d.inventory_level d.forecasted_demand
  let ratio := inventory_ratio d.inventory_level d.forecasted_demand
  let s1 := priceFactor1 d pos
  let s2 := priceFactor2 d ratio s1
  (priceFactor3 d s2).bind fun s =>
    if d.min_margin = 1 then .error "ZeroDivisionError"
    else .ok (mkPricingNums d pos ratio_ip ratio s (priceFloorClamp d s))

/-- Full `getPricingStrategy` tool: numbers plus narrative. -/
def runPricing (g : NarrGen) (etab : List (String × ElasticityEntry))
    (ctab : List (String × CompetitorEntry)) (inp : PricingInput) :
    Except String (PricingNums × String) :=
  (runPricingCore etab ctab inp).map fun p =>
    (p, g.pricingNarr p.category p.current_price p.recommended_price
          p.price_change_pct p.recommendation_type)

/-! ## Client orchestrator (`client/orchestrator.py`) -/

/-- Per-category inventory defaults of `call_replenishment`
(`current_stock`, `in_transit_stock`). -/
def inventoryDefaults (c : String) : ℤ × ℤ :=
  if c = "tv" then (45, 10)
  else if c = "laptop" then (25, 5)
  else if c = "phone" then (80, 20)
  else if c = "kitchen_appliances" then (120, 30)
  else if c = "fashion" then (350, 50)
  else if c = "groceries" then (800, 200)
  else if c = "electronics" then (450, 100)
  else (200, 50)

/-- Per-category inventory defaults of `call_pricing`. -/
def pricingInventoryDefault (c : String) : ℚ :=
  if c = "tv" then 45
  else if c = "laptop" then 25
  else if c = "phone" then 80
  else if c = "kitchen_appliances" then 120
  else if c = "fashion" then 350
  else if c = "groceries" then 800
  else if c = "electronics" then 450
  else 200

/-- Per-category default prices of `call_pricing`. -/
def defaultPrice (c : String) : ℚ :=
  if c = "electronics" then 9000
  else if c = "tv" then 28000
  else if c = "laptop" then 48000
  else if c = "phone" then 16000
  else if c = "kitchen_appliances" then 5500
  else if c = "fashion" then 1500
  else if c = "groceries" then 220
  else if c = "smartphones" then 16000
  else 5000

/-- `RetailOpsState` of the orchestrator.  The `TypedDict` starts with only
the input fields, the error list and the status; every stage-output key is
absent until its node succeeds, modelled with `Option` (`none` = unset). -/
structure RetailOpsState where
  category : String
  days_ahead : ℕ
  forecast_data : Option (ForecastNums × String)
  base_forecast : Option ℚ
  final_forecast : Option ℚ
  seasonal_multiplier : Option ℚ
  event : Option (Option String)
  forecast_narrative : Option String
  replenishment_data : Option (ReplNums × String)
  reorder_qty : Option ℤ
  reorder_timing : Option String
  stockout_risk : Option String
  replenishment_narrative : Option String
  pricing_data : Option (PricingNums × String)
  current_price : Option ℚ
  recommended_price : Option ℚ
  price_change_pct : Option ℚ
  recommendation_type : Option String
  pricing_narrative : Option String
  errors : List String
  workflow_status : String
  deriving DecidableEq

/-- The state built by `run_full_workflow` before invoking the graph. -/
def initialState (category : String) (days_ahead : ℕ) : RetailOpsState :=
  { category := category, days_ahead := days_ahead,
    forecast_data := none, base_forecast := none, final_forecast := none,
    seasonal_multiplier := none, event := none, forecast_narrative := none,
    replenishment_data := none, reorder_qty := none, reorder_timing := none,
    stockout_risk := none, replenishment_narrative := none,
    pricing_data := none, current_price := none, recommended_price := none,
    price_change_pct := none, recommendation_type := none,
    pricing_narrative := none, errors := [], workflow_status := "running" }

/-- `forecasting_node`: call the forecasting tool; on error, append the
message and mark the workflow `failed_forecast`; on success, copy the
forecast fields into the state. -/
def forecasting_node (g : NarrGen) (sales : List SalesRow)
    (events : List EventEntry) (surge : SurgeTable)
    (st : RetailOpsState) : RetailOpsState :=
  match getForecast g sales events surge st.category st.days_ahead with
  | .error e =>
    { st with errors := st.errors ++ ["Forecasting: " ++ e],
              workflow_status := "failed_forecast" }
  | .ok f =>
    { st with forecast_data := some f,
              base_forecast := some f.1.base_forecast,
              final_forecast := some f.1.final_forecast,
              seasonal_multiplier := some f.1.seasonal_multiplier,
              event := some f.1.event,
              forecast_narrative := some f.2 }

/-- `call_replenishment`'s input construction: inventory defaults by
category, fixed supplier terms, volatility `"medium"`, `days_to_event = 10`
when the forecast carries a (truthy) event name. -/
def buildReplInput (f : ForecastNums) : ReplInput :=
  let inv := inventoryDefaults f.category
  { forecasted_demand := f.final_forecast
    avg_daily_demand := f.final_forecast / 30
    demand_volatility := "medium"
    event_name := f.event
    days_to_event :=
      match f.event with
      | some s => if s = "" then none else some 10
      | none => none
    current_stock := inv.1
    in_transit_stock := inv.2
    lead_time_days := 10
    minimum_order_quantity := 50 }

/-- `replenishment_node`: skipped when the forecast failed; otherwise call
the replenishment tool on the constructed input.  (Reading a missing
`forecast_data` key would raise in Python and surface as the catastrophic
`"error"` status; that path is unreachable from `initialState`.) -/
def replenishment_node (g : NarrGen) (st : RetailOpsState) : RetailOpsState :=
  if st.workflow_status = "failed_forecast" then st
  else
    match st.forecast_data with
    | none => { st with workflow_status := "error" }
    | some f =>
      match runReplenishment g (buildReplInput f.1) with
      | .error e =>
        { st with errors := st.errors ++ ["Replenishment: " ++ e],
                  workflow_status := "failed_replenishment" }
      | .ok r =>
        { st with replenishment_data := some r,
                  reorder_qty := some r.1.reorder_qty,
                  reorder_timing := some r.1.reorder_timing,
                  stockout_risk := some r.1.stockout_risk,
                  replenishment_narrative := some r.2 }

/-- `pricing_node`: skipped when `"failed" in workflow_status`; otherwise
call the pricing tool with the category's default price and inventory and a
zero profit target, then mark the workflow `completed`. -/
def pricing_node (g : NarrGen) (etab : List (String × ElasticityEntry))
    (ctab : List (String × CompetitorEntry)) (st : RetailOpsState) :
    RetailOpsState :=
  if pyIn "failed" st.workflow_status then st
  else
    match st.final_forecast with
    | none => { st with workflow_status := "error" }
    | some fd =>
      let inp : PricingInput :=
        { category := st.category
          current_price := some (defaultPrice st.category)
          forecasted_demand := some fd
          inventory_level := some (pricingInventoryDefault st.category)
          target_profit_pct := some 0 }
      match runPricing g etab ctab inp with
      | .error e =>
        { st with errors := st.errors ++ ["Pricing: " ++ e],
                  workflow_status := "failed_pricing" }
      | .ok p =>
        { st with pricing_data := some p,
                  current_price := some p.1.current_price,
                  recommended_price := some p.1.recommended_price,
                  price_change_pct := some p.1.price_change_pct,
                  recommendation_type := some p.1.recommendation_type,
                  pricing_narrative := some p.2,
                  workflow_status := "completed" }

/-- `run_full_workflow`: the compiled linear graph forecast → replenish →
price, started on a fresh state. -/
def run_full_workflow (g : NarrGen) (sales : List SalesRow)
    (events : List EventEntry) (surge : SurgeTable)
    (etab : List (String × ElasticityEntry))
    (ctab : List (String × CompetitorEntry))
    (category : String) (days_ahead : ℕ) : RetailOpsState :=
  pricing_node g etab ctab
    (replenishment_node g
      (forecasting_node g sales events surge (initialState category days_ahead)))

/-- The numeric (non-narrative) outputs of a finished workflow: everything
of the final record except the narrative texts and the raw per-stage result
dictionaries (which carry narratives inside). -/
structure NumericOutputs where
  category : String
  base_forecast : Option ℚ
  final_forecast : Option ℚ
  seasonal_multiplier : Option ℚ
  event : Option (Option String)
  reorder_qty : Option ℤ
  reorder_timing : Option String
  stockout_risk : Option String
  current_price : Option ℚ
  recommended_price : Option ℚ
  price_change_pct : Option ℚ
  recommendation_type : Option String
  errors : List String
  workflow_status : String
  deriving DecidableEq

/-- Project a workflow state to its numeric outputs. -/
def numericView (st : RetailOpsState) : NumericOutputs :=
  { category := st.category, base_forecast := st.base_forecast,
    final_forecast := st.final_forecast,
    seasonal_multiplier := st.seasonal_multiplier, event := st.event,
    reorder_qty := st.reorder_qty, reorder_timing := st.reorder_timing,
    stockout_risk := st.stockout_risk, current_price := st.current_price,
    recommended_price := st.recommended_price,
    price_change_pct := st.price_change_pct,
    recommendation_type := st.recommendation_type,
    errors := st.errors, workflow_status := st.workflow_status }

/-! ## Theorems about the forecasting stage -/

/-- A nonempty filter result makes `simple_moving_average` return the rounded
mean of the trailing 30-row window. -/
theorem sma_eq_of_filter_ne_nil (sales : List SalesRow) (cat : String)
    (h : sales.filter (fun r => r.category = cat) ≠ []) :
    simple_moving_average sales cat =
      some (round2 (listMean
        ((lastN 30 (sales.filter (fun r => r.category = cat))).map (·.sales)))) := by
  have hne : (sales.filter (fun r => r.category = cat)).isEmpty = false := by
    simp [List.isEmpty_iff, h]
  simp [simple_moving_average, hne]

/-- **C1.**  For every category present in the static sales history,
`getForecast category days_ahead` succeeds with
`final_forecast = round2 (base * seasonal * surge)`, where `base` is the
arithmetic mean of the most recent 30 sales rows of that category (rounded
to two decimals, as the server's moving average is), the seasonal
multiplier and event name come from the event-calendar scan and the surge
factor is the per-event per-category surge; and `days_ahead` does not
affect the moving-average window (the result is the same for any two
horizons). -/
theorem forecast_final_formula (sales : List SalesRow)
    (events : List EventEntry) (surge : SurgeTable) (cat : String) (d d' : ℕ)
    (h : sales.filter (fun r => r.category = cat) ≠ []) :
    (getForecastCore sales events surge cat d =
      .ok { category := cat
            base_forecast := round2 (listMean
              ((lastN 30 (sales.filter (fun r => r.category = cat))).map (·.sales)))
            seasonal_multiplier := (get_season_multiplier events).2
            historical_surge_factor :=
              get_historical_surge surge cat (get_season_multiplier events).1
            final_forecast := round2
              ((round2 (listMean
                ((lastN 30 (sales.filter (fun r => r.category = cat))).map (·.sales)))
                * (get_season_multiplier events).2)
                * get_historical_surge surge cat (get_season_multiplier events).1)
            event := (get_season_multiplier events).1 }) ∧
    getForecastCore sales events surge cat d =
      getForecastCore sales events surge cat d' := by
  refine ⟨?_, rfl⟩
  rw [getForecastCore, sma_eq_of_filter_ne_nil sales cat h]

/-- Witness for C1 at a concrete one-row history: the forecast of `"tv"`
with trailing mean 10, no event in the calendar, surge absent. -/
theorem forecast_final_formula_witness :
    getForecastCore [{ category := "tv", sales := 10 }] [] [] "tv" 7 =
      .ok { category := "tv", base_forecast := 10, seasonal_multiplier := 1,
            historical_surge_factor := 1, final_forecast := 10, event := none } := by
  have h := (forecast_final_formula [{ category := "tv", sales := 10 }] [] []
    "tv" 7 30 (by decide)).1
  rw [h]
  norm_num [get_season_multiplier, get_historical_surge, lastN, listMean,
    round2, round_eq, List.filter]

/-! ## Theorems about the seasonal-multiplier lookup -/

/-- **C6, counterexample.**  The seasonal lookup does *not* return the
nearest upcoming event: with a calendar listing event `"B"` 100 days out
before event `"A"` 50 days out, both within the 180-day window, the lookup
returns `"B"` even though `"A"` is strictly nearer. -/
theorem season_multiplier_not_nearest :
    get_season_multiplier
        [{ name := "B", daysUntil := 100, multiplier := 2 },
         { name := "A", daysUntil := 50, multiplier := 3/2 }] = (some "B", 2) ∧
    (0 ≤ (50 : ℤ) ∧ (50 : ℤ) ≤ 180) ∧ (50 : ℤ) < 100 := by
  decide

/-- **C6, amended.**  The seasonal lookup returns the *first* calendar entry
(in calendar order, not the nearest) whose day offset lies in the 180-day
lookahead window, together with its multiplier; when no entry falls in the
window it returns no event and multiplier 1. -/
theorem season_multiplier_first_in_window (events : List EventEntry) :
    get_season_multiplier events =
      match events.find? (fun e => decide (0 ≤ e.daysUntil ∧ e.daysUntil ≤ 180)) with
      | some e => (some e.name, e.multiplier)
      | none => (none, 1) := by
  induction events with
  | nil => rfl
  | cons e rest ih =>
    by_cases hw : 0 ≤ e.daysUntil ∧ e.daysUntil ≤ 180
    · simp [get_season_multiplier, List.find?_cons, hw]
    · simp [get_season_multiplier, List.find?_cons, hw, ih]

/-! ## Theorems about the replenishment stage -/

/-- The minimum-order-quantity adjustment: a nonnegative raw quantity stays
nonnegative, and a positive result is at least the minimum order quantity. -/
theorem moq_floor_props (raw moq : ℤ) (h0 : 0 ≤ raw) :
    0 ≤ (if raw > 0 then max raw moq else raw) ∧
    (0 < (if raw > 0 then max raw moq else raw) →
      moq ≤ (if raw > 0 then max raw moq else raw)) := by
  by_cases hr : raw > 0
  · simp only [if_pos hr]
    exact ⟨le_trans h0 (le_max_left _ _), fun _ => le_max_right _ _⟩
  · simp only [if_neg hr]
    exact ⟨h0, fun hpos => absurd hpos hr⟩

/-- **C4.**  For every input the replenishment stage returns on, the reorder
quantity is `max 0 ⌊demand + safety_stock − effective_stock⌋` raised to the
supplier minimum order quantity when positive (`int()` truncation of the
possibly fractional quantity); hence it is never negative, and whenever it
is positive it is at least the minimum order quantity. -/
theorem reorder_qty_formula (inp : ReplInput) (r : ReplNums)
    (h : runReplenishmentCore inp = .ok r) :
    (r.reorder_qty =
      if max 0 (pyInt (inp.forecasted_demand + r.safety_stock -
          (r.effective_stock : ℚ))) > 0 then
        max (max 0 (pyInt (inp.forecasted_demand + r.safety_stock -
          (r.effective_stock : ℚ)))) inp.minimum_order_quantity
      else
        max 0 (pyInt (inp.forecasted_demand + r.safety_stock -
          (r.effective_stock : ℚ)))) ∧
    0 ≤ r.reorder_qty ∧
    (0 < r.reorder_qty → inp.minimum_order_quantity ≤ r.reorder_qty) := by
  rw [runReplenishmentCore] at h
  rcases hv : volatilityMultiplier inp.demand_volatility with _ | vm <;>
    simp only [hv] at h
  · exact absurd h (by simp)
  · by_cases ha : inp.avg_daily_demand = 0
    · rw [if_pos ha] at h
      exact absurd h (by simp)
    · rw [if_neg ha] at h
      simp only [Except.ok.injEq] at h
      subst h
      exact ⟨rfl, (moq_floor_props _ _ (le_max_left 0 _)).1,
        (moq_floor_props _ _ (le_max_left 0 _)).2⟩

/-- Witness for C4: demand 300, safety stock 125, effective stock 55,
minimum order quantity 50 gives a reorder of 370 units, nonnegative and at
least the minimum order quantity. -/
theorem reorder_qty_formula_witness :
    runReplenishmentCore
        { forecasted_demand := 300, avg_daily_demand := 10,
          demand_volatility := "medium", event_name := none,
          days_to_event := none, current_stock := 45, in_transit_stock := 10,
          lead_time_days := 10, minimum_order_quantity := 50 } =
      .ok { volatility_multiplier := 5/4, festival_multiplier := 1,
            effective_stock := 55, stock_runway_days := 11/2,
            safety_stock := 125, reorder_qty := 370,
            reorder_timing := "immediate", stockout_risk := "high" } ∧
    (0 : ℤ) ≤ 370 ∧ (50 : ℤ) ≤ 370 := by
  have hok : runReplenishmentCore
      { forecasted_demand := 300, avg_daily_demand := 10,
        demand_volatility := "medium", event_name := none,
        days_to_event := none, current_stock := 45, in_transit_stock := 10,
        lead_time_days := 10, minimum_order_quantity := 50 } =
      .ok { volatility_multiplier := 5/4, festival_multiplier := 1,
            effective_stock := 55, stock_runway_days := 11/2,
            safety_stock := 125, reorder_qty := 370,
            reorder_timing := "immediate", stockout_risk := "high" } := by
    norm_num [runReplenishmentCore, volatilityMultiplier, round1, round0,
      round_eq, pyInt]
  have h := reorder_qty_formula _ _ hok
  exact ⟨hok, h.2.1, h.2.2 (by norm_num)⟩

/-- **C5, counterexample.**  The claim applies the thresholds to the exact
runway `effective_stock / avg_daily_demand`; the code first rounds the
runway to one decimal.  With effective stock 498 and average daily demand
50 the true runway is 9.96 days, strictly less than the 10-day lead time,
so the claim predicts `"immediate"`/`"high"`; the stored runway rounds to
10.0 and the code returns `"soon"`/`"medium"`. -/
theorem timing_risk_rounding_cex :
    runReplenishmentCore
        { forecasted_demand := 100, avg_daily_demand := 50,
          demand_volatility := "medium", event_name := none,
          days_to_event := none, current_stock := 498, in_transit_stock := 0,
          lead_time_days := 10, minimum_order_quantity := 50 } =
      .ok { volatility_multiplier := 5/4, festival_multiplier := 1,
            effective_stock := 498, stock_runway_days := 10,
            safety_stock := 625, reorder_qty := 227,
            reorder_timing := "soon", stockout_risk := "medium" } ∧
    ((498 : ℤ) + 0 : ℚ) / 50 < 10 := by
  constructor
  · norm_num [runReplenishmentCore, volatilityMultiplier, round1, round0,
      round_eq, pyInt]
  · norm_num

/-- **C5, amended.**  The timing/risk classification applies the stated
thresholds to the stored stock runway, i.e. the exact runway
`effective_stock / avg_daily_demand` **rounded to one decimal**: rounded
runway < lead time → `"immediate"`/`"high"`; otherwise rounded runway < 30
→ `"soon"`/`"medium"`; otherwise `"defer"`/`"low"`.  (In particular a
rounded runway of 6 days against a 10-day lead time yields
`"immediate"`/`"high"`, as the witness shows.) -/
theorem timing_risk_classification (inp : ReplInput) (r : ReplNums)
    (h : runReplenishmentCore inp = .ok r) :
    r.stock_runway_days =
      round1 (((inp.current_stock + inp.in_transit_stock : ℤ) : ℚ) /
        inp.avg_daily_demand) ∧
    (r.stock_runway_days < (inp.lead_time_days : ℚ) →
      r.reorder_timing = "immediate" ∧ r.stockout_risk = "high") ∧
    (¬ r.stock_runway_days < (inp.lead_time_days : ℚ) →
      r.stock_runway_days < 30 →
      r.reorder_timing = "soon" ∧ r.stockout_risk = "medium") ∧
    (¬ r.stock_runway_days < (inp.lead_time_days : ℚ) →
      ¬ r.stock_runway_days < 30 →
      r.reorder_timing = "defer" ∧ r.stockout_risk = "low") := by
  rw [runReplenishmentCore] at h
  rcases hv : volatilityMultiplier inp.demand_volatility with _ | vm <;>
    simp only [hv] at h
  · exact absurd h (by simp)
  · by_cases ha : inp.avg_daily_demand = 0
    · rw [if_pos ha] at h
      exact absurd h (by simp)
    · rw [if_neg ha] at h
      simp only [Except.ok.injEq] at h
      subst h
      refine ⟨rfl, fun hc => ?_, fun hc1 hc2 => ?_, fun hc1 hc2 => ?_⟩
      · simp only [if_pos hc]
        exact ⟨trivial, trivial⟩
      · simp only [if_neg hc1, if_pos hc2]
        exact ⟨trivial, trivial⟩
      · simp only [if_neg hc1, if_neg hc2]
        exact ⟨trivial, trivial⟩

/-- Witness for C5 (the spec's scenario): effective stock 60 at 10 units of
average daily demand gives a 6-day runway against a 10-day lead time, so
the decision is `"immediate"` with `"high"` stockout risk. -/
theorem timing_risk_classification_witness :
    ∃ r, runReplenishmentCore
        { forecasted_demand := 100, avg_daily_demand := 10,
          demand_volatility := "medium", event_name := none,
          days_to_event := none, current_stock := 50, in_transit_stock := 10,
          lead_time_days := 10, minimum_order_quantity := 50 } = .ok r ∧
      r.stock_runway_days = 6 ∧
      r.reorder_timing = "immediate" ∧ r.stockout_risk = "high" := by
  have hok : runReplenishmentCore
      { forecasted_demand := 100, avg_daily_demand := 10,
        demand_volatility := "medium", event_name := none,
        days_to_event := none, current_stock := 50, in_transit_stock := 10,
        lead_time_days := 10, minimum_order_quantity := 50 } =
      .ok { volatility_multiplier := 5/4, festival_multiplier := 1,
            effective_stock := 60, stock_runway_days := 6,
            safety_stock := 125, reorder_qty := 165,
            reorder_timing := "immediate", stockout_risk := "high" } := by
    norm_num [runReplenishmentCore, volatilityMultiplier, round1, round0,
      round_eq, pyInt]
  have h := timing_risk_classification _ _ hok
  exact ⟨_, hok, rfl, (h.2.1 (by norm_num)).1, (h.2.1 (by norm_num)).2⟩

/-! ## Theorems about the pricing stage -/

/-- Rounding to two decimals loses strictly less than half a cent downward. -/
theorem round2_lb (x : ℚ) : x - 1/200 < round2 x := by
  have h := Int.sub_one_lt_floor (x * 100 + 1/2)
  rw [round2, round_eq]
  have h' : x * 100 - 1/2 < ((⌊x * 100 + 1/2⌋ : ℤ) : ℚ) := by linarith
  linarith

/-- Rounding to two decimals adds at most half a cent. -/
theorem round2_ub (x : ℚ) : round2 x ≤ x + 1/200 := by
  have h := Int.floor_le (x * 100 + 1/2)
  rw [round2, round_eq]
  linarith

/-- The floor clamp never returns a price below the minimum-margin floor. -/
theorem priceFloorClamp_ge (d : PricingData) (s : ℚ × ℚ × String) :
    d.current_price * (1 - d.base_margin) / (1 - d.min_margin) ≤
      (priceFloorClamp d s).1 := by
  simp only [priceFloorClamp]
  split
  · exact le_refl _
  · next h => exact not_lt.mp h

/-- When the incoming price violates the floor, the clamp returns exactly
the floor price and flags `"floor"`. -/
theorem priceFloorClamp_floor (d : PricingData) (s : ℚ × ℚ × String)
    (h : s.1 < d.current_price * (1 - d.base_margin) / (1 - d.min_margin)) :
    priceFloorClamp d s =
      (d.current_price * (1 - d.base_margin) / (1 - d.min_margin),
       ((d.current_price * (1 - d.base_margin) / (1 - d.min_margin) -
         d.current_price) / d.current_price) * 100, "floor") := by
  simp only [priceFloorClamp]
  rw [if_pos h]

/-- When the incoming price respects the floor, the clamp is a no-op. -/
theorem priceFloorClamp_noop (d : PricingData) (s : ℚ × ℚ × String)
    (h : ¬ s.1 < d.current_price * (1 - d.base_margin) / (1 - d.min_margin)) :
    priceFloorClamp d s = s := by
  simp only [priceFloorClamp]
  rw [if_neg h]

/-- The clamp either keeps the incoming recommendation type or sets `"floor"`. -/
theorem priceFloorClamp_type (d : PricingData) (s : ℚ × ℚ × String) :
    (priceFloorClamp d s).2.2 = s.2.2 ∨ (priceFloorClamp d s).2.2 = "floor" := by
  simp only [priceFloorClamp]
  split
  · right; rfl
  · left; rfl

/-- Factor 1 only ever selects `"discount"`, `"increase"` or `"maintain"`. -/
theorem priceFactor1_type (d : PricingData) (pos : String) :
    (priceFactor1 d pos).2.2 = "discount" ∨
    (priceFactor1 d pos).2.2 = "increase" ∨
    (priceFactor1 d pos).2.2 = "maintain" := by
  simp only [priceFactor1]
  split
  · left; rfl
  · split
    · right; left; rfl
    · right; right; rfl

/-- Without an `"overpriced"` competitor, factor 1 either maintains the
price or raises it, so any positive clearance discount beats it. -/
theorem priceFactor1_clearance_cond (d : PricingData) (pos : String)
    (hpos : pos ≠ "overpriced") (hP : 0 < d.current_price)
    (dc : ℚ) (hdc : 0 < dc) :
    d.current_price * (1 - dc) < (priceFactor1 d pos).1 ∨
      (priceFactor1 d pos).2.2 = "maintain" := by
  simp only [priceFactor1]
  rw [if_neg hpos]
  split
  · next hcase =>
    left
    have hinc : (0 : ℚ) < min (1/20) (d.target_profit_pct / 100) :=
      lt_min (by norm_num) (div_pos hcase.2 (by norm_num))
    have hlt : (1 : ℚ) - dc < 1 + min (1/20) (d.target_profit_pct / 100) := by
      linarith
    exact mul_lt_mul_of_pos_left hlt hP
  · right; rfl

/-- When the inventory ratio exceeds 2 and the clearance price beats the
factor-1 recommendation (or factor 1 maintained), factor 2 picks the
clearance discount `min 8% max_discount`. -/
theorem priceFactor2_clearance (d : PricingData) (ratio : ℚ)
    (s1 : ℚ × ℚ × String) (hr : ratio > 2)
    (hcond : d.current_price * (1 - min (2/25) d.max_discount) < s1.1 ∨
      s1.2.2 = "maintain") :
    priceFactor2 d ratio s1 =
      (d.current_price * (1 - min (2/25) d.max_discount),
       -(min (2/25) d.max_discount) * 100, "clearance") := by
  simp only [priceFactor2]
  rw [if_pos hr, if_pos hcond]

/-- With a balanced inventory ratio, factor 2 passes factor 1 through. -/
theorem priceFactor2_of_ratio_between (d : PricingData) (ratio : ℚ)
    (s1 : ℚ × ℚ × String) (h2 : ¬ ratio > 2) (h05 : ¬ ratio < 1/2) :
    priceFactor2 d ratio s1 = s1 := by
  simp only [priceFactor2]
  rw [if_neg h2, if_neg h05]

/-- Factor 3 passes any non-`"maintain"` recommendation through untouched. -/
theorem priceFactor3_of_not_maintain (d : PricingData) (s2 : ℚ × ℚ × String)
    (h : s2.2.2 ≠ "maintain") : priceFactor3 d s2 = .ok s2 := by
  simp only [priceFactor3]
  rw [if_neg (fun hc => h hc.2)]

/-- Factor 3 succeeds whenever the required margin is not exactly 1. -/
theorem priceFactor3_ok (d : PricingData) (s2 : ℚ × ℚ × String)
    (hreq : d.target_profit_pct / 100 + d.min_margin ≠ 1) :
    ∃ s, priceFactor3 d s2 = .ok s := by
  simp only [priceFactor3]
  rw [if_neg hreq]
  split
  · split
    · exact ⟨_, rfl⟩
    · exact ⟨_, rfl⟩
  · exact ⟨_, rfl⟩

/-- Factor 3 either passes the incoming type through or sets `"optimize"`. -/
theorem priceFactor3_type (d : PricingData) (s2 s : ℚ × ℚ × String)
    (h : priceFactor3 d s2 = .ok s) :
    s.2.2 = s2.2.2 ∨ s.2.2 = "optimize" := by
  simp only [priceFactor3] at h
  split at h
  · split at h
    · split at h
      · exact absurd h (by simp)
      · simp only [Except.ok.injEq] at h
        subst h
        right; rfl
    · simp only [Except.ok.injEq] at h
      subst h
      left; rfl
  · simp only [Except.ok.injEq] at h
    subst h
    left; rfl

/-- Inversion of a successful pricing run: the returned record is the
assembled state for some factor-3 output, and the minimum margin is not 1. -/
theorem runPricingCore_inv (etab : List (String × ElasticityEntry))
    (ctab : List (String × CompetitorEntry)) (inp : PricingInput)
    (r : PricingNums) (h : runPricingCore etab ctab inp = .ok r) :
    ∃ s, priceFactor3 (load_category_data etab ctab inp)
        (priceFactor2 (load_category_data etab ctab inp)
          (inventory_ratio (load_category_data etab ctab inp).inventory_level
            (load_category_data etab ctab inp).forecasted_demand)
          (priceFactor1 (load_category_data etab ctab inp)
            (analyze_competitor_position
              (load_category_data etab ctab inp).price_difference_pct))) =
          .ok s ∧
      (load_category_data etab ctab inp).min_margin ≠ 1 ∧
      r = mkPricingNums (load_category_data etab ctab inp)
            (analyze_competitor_position
              (load_category_data etab ctab inp).price_difference_pct)
            (inventory_ratio (load_category_data etab ctab inp).inventory_level
              (load_category_data etab ctab inp).forecasted_demand)
            (inventory_ratio (load_category_data etab ctab inp).inventory_level
              (load_category_data etab ctab inp).forecasted_demand)
            s (priceFloorClamp (load_category_data etab ctab inp) s) := by
  simp only [runPricingCore] at h
  rcases hE : priceFactor3 (load_category_data etab ctab inp)
      (priceFactor2 (load_category_data etab ctab inp)
        (inventory_ratio (load_category_data etab ctab inp).inventory_level
          (load_category_data etab ctab inp).forecasted_demand)
        (priceFactor1 (load_category_data etab ctab inp)
          (analyze_competitor_position
            (load_category_data etab ctab inp).price_difference_pct)))
      with e | s <;> rw [hE] at h <;> simp only [Except.bind] at h
  · exact absurd h (by simp)
  · by_cases hmm : (load_category_data etab ctab inp).min_margin = 1
    · rw [if_pos hmm] at h
      exact absurd h (by simp)
    · rw [if_neg hmm] at h
      simp only [Except.ok.injEq] at h
      exact ⟨s, rfl, hmm, h.symm⟩

/-- **C3, counterexample.**  The *returned* `recommended_price` is the
floor-clamped price rounded to two decimals, and the rounding can dip below
the floor: with default margins (base 20%, min 15%), an overpriced
competitor position and current price 10, the clamp sets the floor price
160/17 ≈ 9.41176 but the tool returns 9.41 < 160/17. -/
theorem pricing_floor_rounding_cex :
    (runPricingCore []
        [("x", { competitor_avg_price := some 9,
                 price_difference_pct := some 20 })]
        { category := "x", current_price := some 10,
          forecasted_demand := some 100, inventory_level := some 100,
          target_profit_pct := some 0 }).map
        (fun r => (r.recommendation_type, r.recommended_price,
          r.current_price * (1 - r.base_margin) / (1 - r.min_margin))) =
      .ok ("floor", 941/100, 160/17) ∧
    (941/100 : ℚ) < 160/17 := by
  constructor
  · simp only [runPricingCore, load_category_data, analyze_competitor_position,
      inventory_ratio, priceFactor1, priceFactor2, priceFactor3,
      priceFloorClamp, mkPricingNums, List.lookup, Except.bind, Except.map,
      Option.getD]
    norm_num [round2, round1, round_eq]
  · norm_num

/-- **C3, amended.**  The recommendation *before* the final two-decimal
rounding never goes below the floor price
`current_price * (1 - base_margin) / (1 - min_margin)`; the returned
`recommended_price` is that value rounded to two decimals and therefore
sits above `floor - 1/200`; and whenever the computed price would violate
the floor it is clamped and the recommendation type is set to `"floor"`. -/
theorem pricing_floor_amended (etab : List (String × ElasticityEntry))
    (ctab : List (String × CompetitorEntry)) (inp : PricingInput)
    (r : PricingNums) (h : runPricingCore etab ctab inp = .ok r) :
    r.current_price * (1 - r.base_margin) / (1 - r.min_margin) ≤
      r.recommended_raw ∧
    r.current_price * (1 - r.base_margin) / (1 - r.min_margin) - 1/200 <
      r.recommended_price ∧
    (r.recommended_before_floor <
        r.current_price * (1 - r.base_margin) / (1 - r.min_margin) →
      r.recommendation_type = "floor") := by
  obtain ⟨s, hs3, hmm, hr⟩ := runPricingCore_inv etab ctab inp r h
  subst hr
  simp only [mkPricingNums]
  refine ⟨priceFloorClamp_ge _ _, ?_, ?_⟩
  · have h1 := priceFloorClamp_ge (load_category_data etab ctab inp) s
    have h2 := round2_lb (priceFloorClamp (load_category_data etab ctab inp) s).1
    linarith
  · intro hlt
    rw [priceFloorClamp_floor _ _ hlt]

/-- Witness for the amended C3 on a concrete maintained price: current
price 10 with default margins keeps `recommended_price = 10` above the
floor 160/17. -/
theorem pricing_floor_amended_witness :
    ∃ r, runPricingCore [] []
        { category := "x", current_price := some 10,
          forecasted_demand := some 100, inventory_level := some 100,
          target_profit_pct := some 0 } = .ok r ∧
      r.current_price * (1 - r.base_margin) / (1 - r.min_margin) ≤
        r.recommended_raw ∧
      r.current_price * (1 - r.base_margin) / (1 - r.min_margin) - 1/200 <
        r.recommended_price := by
  have hok : runPricingCore [] []
      { category := "x", current_price := some 10,
        forecasted_demand := some 100, inventory_level := some 100,
        target_profit_pct := some 0 } =
      .ok { category := "x", current_price := 10, forecasted_demand := 100,
            inventory_level := 100, target_profit_pct := 0,
            elasticity := -(3/2), base_margin := 1/5, min_margin := 3/20,
            max_discount := 1/5, competitor_price := 10,
            price_difference_pct := 0, competitor_position := "competitive",
            inventory_ratio_pressure := 1, inventory_ratio_decision := 1,
            recommended_before_floor := 10, recommended_raw := 10,
            recommended_price := 10, price_change_pct := 0,
            expected_demand_change := 0, expected_revenue_change := 0,
            expected_profit_change := 0,
            recommendation_type := "maintain" } := by
    simp only [runPricingCore, load_category_data, analyze_competitor_position,
      inventory_ratio, priceFactor1, priceFactor2, priceFactor3,
      priceFloorClamp, mkPricingNums, List.lookup, Except.bind, Except.map,
      Option.getD]
    norm_num [round2, round1, round_eq]
    simp
    norm_num [round2, round1, round_eq]
  have h := pricing_floor_amended _ _ _ _ hok
  exact ⟨_, hok, h.1, h.2.1⟩

/-- **C7, counterexample.**  An inventory-to-demand ratio of exactly 3.0
does *not* guarantee the `"clearance"` recommendation: with the default
margins (base 20%, min 15%) the 8% clearance price 920 falls below the
floor 16000/17 ≈ 941.18, so the floor clamp overrides the type to
`"floor"`. -/
theorem clearance_overridden_cex :
    (runPricingCore [] []
        { category := "x", current_price := some 1000,
          forecasted_demand := some 100, inventory_level := some 300,
          target_profit_pct := some 0 }).map
        (fun r => (r.inventory_ratio_decision, r.recommendation_type)) =
      .ok (3, "floor") ∧
    ("floor" : String) ≠ "clearance" := by
  constructor
  · simp only [runPricingCore, load_category_data, analyze_competitor_position,
      inventory_ratio, priceFactor1, priceFactor2, priceFactor3,
      priceFloorClamp, mkPricingNums, List.lookup, Except.bind, Except.map,
      Option.getD]
    norm_num [round2, round1, round_eq]
    simp
    norm_num [round2, round1, round_eq]
  · decide

/-- **C7, amended.**  When the inventory-to-demand ratio exceeds 2.0 (for
example equals 3.0), the competitor position is not `"overpriced"`, the
current price is positive, the clearance discount `min 8% max_discount` is
worth more than half a cent, and the discounted price still respects the
minimum-margin floor, the pricing stage selects `"clearance"` with the
recommended raw price `current_price * (1 - min 8% max_discount)` — a
discount bounded by the category's max discount — and the returned
recommended price is strictly below the current price. -/
theorem clearance_amended (etab : List (String × ElasticityEntry))
    (ctab : List (String × CompetitorEntry)) (inp : PricingInput)
    (r : PricingNums) (h : runPricingCore etab ctab inp = .ok r)
    (hratio : 2 < r.inventory_ratio_decision)
    (hpos : r.competitor_position ≠ "overpriced")
    (hP : 0 < r.current_price)
    (hd : 1/200 < r.current_price * min (2/25) r.max_discount)
    (hfloor : r.current_price * (1 - r.base_margin) / (1 - r.min_margin) ≤
      r.current_price * (1 - min (2/25) r.max_discount)) :
    r.recommendation_type = "clearance" ∧
    r.recommended_raw = r.current_price * (1 - min (2/25) r.max_discount) ∧
    r.recommended_price < r.current_price ∧
    min (2/25) r.max_discount ≤ r.max_discount := by
  obtain ⟨s, hs3, hmm, hr⟩ := runPricingCore_inv etab ctab inp r h
  subst hr
  simp only [mkPricingNums] at hratio hpos hP hd hfloor ⊢
  have hdc : 0 < min (2/25 : ℚ) (load_category_data etab ctab inp).max_discount := by
    nlinarith
  have hcond := priceFactor1_clearance_cond (load_category_data etab ctab inp)
    (analyze_competitor_position
      (load_category_data etab ctab inp).price_difference_pct) hpos hP _ hdc
  have hs2 := priceFactor2_clearance (load_category_data etab ctab inp)
    (inventory_ratio (load_category_data etab ctab inp).inventory_level
      (load_category_data etab ctab inp).forecasted_demand)
    (priceFactor1 (load_category_data etab ctab inp)
      (analyze_competitor_position
        (load_category_data etab ctab inp).price_difference_pct))
    hratio hcond
  rw [hs2] at hs3
  rw [priceFactor3_of_not_maintain _ _ (by simp)] at hs3
  simp only [Except.ok.injEq] at hs3
  subst hs3
  have hnoclamp := priceFloorClamp_noop (load_category_data etab ctab inp)
    ((load_category_data etab ctab inp).current_price *
        (1 - min (2/25) (load_category_data etab ctab inp).max_discount),
      -(min (2/25) (load_category_data etab ctab inp).max_discount) * 100,
      "clearance")
    (not_lt.mpr hfloor)
  rw [hnoclamp]
  refine ⟨rfl, rfl, ?_, min_le_right _ _⟩
  have hub := round2_ub
    ((load_category_data etab ctab inp).current_price *
      (1 - min (2/25) (load_category_data etab ctab inp).max_discount))
  nlinarith

/-- Witness for the amended C7: a category with a 30% base margin, ratio
3.0 and no competitor signal gets the 8% clearance discount, price 920
down from 1000. -/
theorem clearance_amended_witness :
    ∃ r, runPricingCore
        [("x", { elasticity := none, base_margin := some (3/10),
                 min_margin := some (3/20), max_discount := some (1/5) })] []
        { category := "x", current_price := some 1000,
          forecasted_demand := some 100, inventory_level := some 300,
          target_profit_pct := some 0 } = .ok r ∧
      r.recommendation_type = "clearance" ∧
      r.recommended_price < r.current_price := by
  have hok : runPricingCore
      [("x", { elasticity := none, base_margin := some (3/10),
               min_margin := some (3/20), max_discount := some (1/5) })] []
      { category := "x", current_price := some 1000,
        forecasted_demand := some 100, inventory_level := some 300,
        target_profit_pct := some 0 } =
      .ok { category := "x", current_price := 1000, forecasted_demand := 100,
            inventory_level := 300, target_profit_pct := 0,
            elasticity := -(3/2), base_margin := 3/10, min_margin := 3/20,
            max_discount := 1/5, competitor_price := 1000,
            price_difference_pct := 0, competitor_position := "competitive",
            inventory_ratio_pressure := 3, inventory_ratio_decision := 3,
            recommended_before_floor := 920, recommended_raw := 920,
            recommended_price := 920, price_change_pct := -8,
            expected_demand_change := 12, expected_revenue_change := 3,
            expected_profit_change := -(179/10),
            recommendation_type := "clearance" } := by
    simp only [runPricingCore, load_category_data, analyze_competitor_position,
      inventory_ratio, priceFactor1, priceFactor2, priceFactor3,
      priceFloorClamp, mkPricingNums, List.lookup, Except.bind, Except.map,
      Option.getD]
    norm_num [round2, round1, round_eq]
    simp
    norm_num [round2, round1, round_eq]
  have h := clearance_amended _ _ _ _ hok (by norm_num) (by decide)
    (by norm_num) (by norm_num) (by norm_num)
  exact ⟨_, hok, h.1, h.2.2.1⟩

/-- **C9, counterexample.**  The pricing stage does *not* always return a
well-formed result for an unknown category: with both tables missing the
category and a target profit of 85%, the target-profit branch computes
`required_margin = 85/100 + 0.15 = 1` (the default minimum margin), passes
the `required_margin > base_margin` check, and the unguarded division
`margin_gap / (1 - required_margin)` raises `ZeroDivisionError` — the tool
call fails instead of returning a result. -/
theorem pricing_error_on_target85_cex :
    runPricingCore [] []
        { category := "x", current_price := some 100,
          forecasted_demand := some 100, inventory_level := some 100,
          target_profit_pct := some 85 } = .error "ZeroDivisionError" := by
  simp only [runPricingCore, load_category_data, analyze_competitor_position,
    inventory_ratio, priceFactor1, priceFactor2, priceFactor3,
    priceFloorClamp, mkPricingNums, List.lookup, Except.bind, Except.map,
    Option.getD]
  norm_num [round2, round1, round_eq]
  simp

/-- **C9, amended.**  For every category absent from both the elasticity
and the competitor-price tables, as long as the resolved target profit is
not exactly 85% (where the unguarded division of the target-profit branch
raises, as the counterexample shows), the pricing stage returns a
well-formed result with the missing entries replaced by the fixed defaults
— elasticity −1.5, base margin 0.20, minimum margin 0.15, max discount
0.20 — and the competitor price defaulting to the supplied current
price. -/
theorem pricing_defaults_on_unknown_category
    (etab : List (String × ElasticityEntry))
    (ctab : List (String × CompetitorEntry)) (inp : PricingInput) (P : ℚ)
    (he : etab.lookup inp.category = none)
    (hc : ctab.lookup inp.category = none)
    (hp : inp.current_price = some P)
    (ht : inp.target_profit_pct.getD 0 ≠ 85) :
    ∃ r, runPricingCore etab ctab inp = .ok r ∧
      r.elasticity = -(3/2) ∧ r.base_margin = 1/5 ∧ r.min_margin = 3/20 ∧
      r.max_discount = 1/5 ∧ r.competitor_price = P ∧ r.current_price = P := by
  have hL : load_category_data etab ctab inp =
      { category := inp.category, elasticity := -(3/2), base_margin := 1/5,
        min_margin := 3/20, max_discount := 1/5, competitor_price := P,
        price_difference_pct := 0, current_price := P,
        forecasted_demand := inp.forecasted_demand.getD 100,
        inventory_level := inp.inventory_level.getD 200,
        target_profit_pct := inp.target_profit_pct.getD 0 } := by
    simp [load_category_data, he, hc, hp]
  have hreq : (load_category_data etab ctab inp).target_profit_pct / 100 +
      (load_category_data etab ctab inp).min_margin ≠ 1 := by
    rw [hL]
    dsimp only
    intro heq
    apply ht
    linarith
  obtain ⟨s, hs⟩ := priceFactor3_ok (load_category_data etab ctab inp)
    (priceFactor2 (load_category_data etab ctab inp)
      (inventory_ratio (load_category_data etab ctab inp).inventory_level
        (load_category_data etab ctab inp).forecasted_demand)
      (priceFactor1 (load_category_data etab ctab inp)
        (analyze_competitor_position
          (load_category_data etab ctab inp).price_difference_pct)))
    hreq
  refine ⟨mkPricingNums (load_category_data etab ctab inp)
      (analyze_competitor_position
        (load_category_data etab ctab inp).price_difference_pct)
      (inventory_ratio (load_category_data etab ctab inp).inventory_level
        (load_category_data etab ctab inp).forecasted_demand)
      (inventory_ratio (load_category_data etab ctab inp).inventory_level
        (load_category_data etab ctab inp).forecasted_demand)
      s (priceFloorClamp (load_category_data etab ctab inp) s),
    ?_, ?_, ?_, ?_, ?_, ?_, ?_⟩
  · simp only [runPricingCore]
    rw [hs]
    simp only [Except.bind]
    rw [if_neg (by rw [hL]; norm_num)]
  · simp [mkPricingNums, hL]
  · simp [mkPricingNums, hL]
  · simp [mkPricingNums, hL]
  · simp [mkPricingNums, hL]
  · simp [mkPricingNums, hL]
  · simp [mkPricingNums, hL]

/-- Witness for C9: an unknown category `"x"` with current price 100 and
empty tables resolves to all the documented defaults. -/
theorem pricing_defaults_on_unknown_category_witness :
    ∃ r, runPricingCore [] []
        { category := "x", current_price := some 100,
          forecasted_demand := none, inventory_level := none,
          target_profit_pct := none } = .ok r ∧
      r.elasticity = -(3/2) ∧ r.base_margin = 1/5 ∧ r.min_margin = 3/20 ∧
      r.max_discount = 1/5 ∧ r.competitor_price = 100 ∧
      r.current_price = 100 :=
  pricing_defaults_on_unknown_category [] [] _ 100 rfl rfl rfl (by norm_num)

/-- **C10.**  For every pricing input whose (resolved) forecasted demand is
nonpositive, the inventory-to-demand ratio is taken to be 1.0 both in the
inventory-pressure analysis and in the pricing decision — so no division by
zero happens — and neither the clearance branch (ratio > 2) nor the premium
branch (ratio < 0.5) can fire: the recommendation type is never
`"clearance"` or `"premium"`. -/
theorem nonpositive_demand_no_ratio_branches
    (etab : List (String × ElasticityEntry))
    (ctab : List (String × CompetitorEntry)) (inp : PricingInput)
    (r : PricingNums) (h : runPricingCore etab ctab inp = .ok r)
    (hfd : inp.forecasted_demand.getD 100 ≤ 0) :
    r.inventory_ratio_pressure = 1 ∧ r.inventory_ratio_decision = 1 ∧
    r.recommendation_type ≠ "clearance" ∧
    r.recommendation_type ≠ "premium" := by
  obtain ⟨s, hs3, hmm, hr⟩ := runPricingCore_inv etab ctab inp r h
  subst hr
  have hfd' : ¬ (load_category_data etab ctab inp).forecasted_demand > 0 :=
    not_lt.mpr hfd
  have hratio1 : inventory_ratio
      (load_category_data etab ctab inp).inventory_level
      (load_category_data etab ctab inp).forecasted_demand = 1 := by
    simp only [inventory_ratio]
    rw [if_neg hfd']
  rw [hratio1] at hs3
  rw [priceFactor2_of_ratio_between _ _ _ (by norm_num) (by norm_num)] at hs3
  have ht1 := priceFactor1_type (load_category_data etab ctab inp)
    (analyze_competitor_position
      (load_category_data etab ctab inp).price_difference_pct)
  have ht3 := priceFactor3_type _ _ _ hs3
  have ht4 := priceFloorClamp_type (load_category_data etab ctab inp) s
  simp only [mkPricingNums]
  refine ⟨hratio1, hratio1, ?_, ?_⟩
  · rcases ht4 with h4 | h4
    · rw [h4]
      rcases ht3 with h3 | h3
      · rw [h3]
        rcases ht1 with h1 | h1 | h1 <;> rw [h1] <;> decide
      · rw [h3]; decide
    · rw [h4]; decide
  · rcases ht4 with h4 | h4
    · rw [h4]
      rcases ht3 with h3 | h3
      · rw [h3]
        rcases ht1 with h1 | h1 | h1 <;> rw [h1] <;> decide
      · rw [h3]; decide
    · rw [h4]; decide

/-- Witness for C10: forecasted demand 0 yields ratio 1 and a `"maintain"`
recommendation. -/
theorem nonpositive_demand_no_ratio_branches_witness :
    ∃ r, runPricingCore [] []
        { category := "x", current_price := some 100,
          forecasted_demand := some 0, inventory_level := some 300,
          target_profit_pct := some 0 } = .ok r ∧
      r.inventory_ratio_pressure = 1 ∧ r.inventory_ratio_decision = 1 ∧
      r.recommendation_type ≠ "clearance" ∧
      r.recommendation_type ≠ "premium" := by
  have hok : runPricingCore [] []
      { category := "x", current_price := some 100,
        forecasted_demand := some 0, inventory_level := some 300,
        target_profit_pct := some 0 } =
      .ok { category := "x", current_price := 100, forecasted_demand := 0,
            inventory_level := 300, target_profit_pct := 0,
            elasticity := -(3/2), base_margin := 1/5, min_margin := 3/20,
            max_discount := 1/5, competitor_price := 100,
            price_difference_pct := 0, competitor_position := "competitive",
            inventory_ratio_pressure := 1, inventory_ratio_decision := 1,
            recommended_before_floor := 100, recommended_raw := 100,
            recommended_price := 100, price_change_pct := 0,
            expected_demand_change := 0, expected_revenue_change := 0,
            expected_profit_change := 0,
            recommendation_type := "maintain" } := by
    simp only [runPricingCore, load_category_data, analyze_competitor_position,
      inventory_ratio, priceFactor1, priceFactor2, priceFactor3,
      priceFloorClamp, mkPricingNums, List.lookup, Except.bind, Except.map,
      Option.getD]
    norm_num [round2, round1, round_eq]
    simp
    norm_num [round2, round1, round_eq]
  have h := nonpositive_demand_no_ratio_branches _ _ _ _ hok (by norm_num)
  exact ⟨_, hok, h.1, h.2.1, h.2.2.1, h.2.2.2⟩

/-! ## Theorems about the orchestrator -/

/-- **C2.**  For every category absent from the static sales history, the
forecasting tool returns an error object (no forecast numbers), the
orchestrator appends the error to the error list and sets the overall
status to `"failed_forecast"`, and the replenishment and pricing nodes are
skipped, leaving every stage-output field of the final record unset. -/
theorem failed_forecast_shortcircuit (g : NarrGen) (sales : List SalesRow)
    (evs : List EventEntry) (surge : SurgeTable)
    (etab : List (String × ElasticityEntry))
    (ctab : List (String × CompetitorEntry)) (cat : String) (d : ℕ)
    (h : sales.filter (fun r => r.category = cat) = []) :
    getForecastCore sales evs surge cat d =
      .error ("No data found for category '" ++ cat ++ "'.") ∧
    (let st := run_full_workflow g sales evs surge etab ctab cat d
     st.workflow_status = "failed_forecast" ∧
     st.errors = ["Forecasting: " ++
       ("No data found for category '" ++ cat ++ "'.")] ∧
     st.forecast_data = none ∧ st.base_forecast = none ∧
     st.final_forecast = none ∧ st.replenishment_data = none ∧
     st.reorder_qty = none ∧ st.reorder_timing = none ∧
     st.stockout_risk = none ∧ st.pricing_data = none ∧
     st.current_price = none ∧ st.recommended_price = none ∧
     st.price_change_pct = none ∧ st.recommendation_type = none) := by
  have hsma : simple_moving_average sales cat = none := by
    simp [simple_moving_average, h]
  have hfc : getForecastCore sales evs surge cat d =
      .error ("No data found for category '" ++ cat ++ "'.") := by
    rw [getForecastCore, hsma]
  refine ⟨hfc, ?_⟩
  have hpy : pyIn "failed" "failed_forecast" = true := by decide
  simp [run_full_workflow, forecasting_node, getForecast, hfc, Except.map,
    replenishment_node, pricing_node, initialState, hpy]

/-- Witness for C2: an empty sales history fails the workflow for
category `"nosuch"` at the forecasting stage. -/
theorem failed_forecast_shortcircuit_witness :
    getForecastCore [] [] [] "nosuch" 30 =
      .error ("No data found for category '" ++ "nosuch" ++ "'.") ∧
    (let st := run_full_workflow constNarr [] [] [] [] [] "nosuch" 30
     st.workflow_status = "failed_forecast" ∧
     st.errors = ["Forecasting: " ++
       ("No data found for category '" ++ "nosuch" ++ "'.")] ∧
     st.forecast_data = none ∧ st.base_forecast = none ∧
     st.final_forecast = none ∧ st.replenishment_data = none ∧
     st.reorder_qty = none ∧ st.reorder_timing = none ∧
     st.stockout_risk = none ∧ st.pricing_data = none ∧
     st.current_price = none ∧ st.recommended_price = none ∧
     st.price_change_pct = none ∧ st.recommendation_type = none) :=
  failed_forecast_shortcircuit constNarr [] [] [] [] [] "nosuch" 30 rfl

/-- **C8.**  The narrative oracle (the only stand-in for the language-model
call; the deterministic fallback is one such oracle) has no influence on
any numeric output of the full pipeline: with the same static tables and
input, any two oracles produce identical numeric outputs for all stages —
the arithmetic stages are pure functions of their inputs and the static
tables. -/
theorem pipeline_numeric_determinism (g1 g2 : NarrGen)
    (sales : List SalesRow) (evs : List EventEntry) (surge : SurgeTable)
    (etab : List (String × ElasticityEntry))
    (ctab : List (String × CompetitorEntry)) (cat : String) (d : ℕ) :
    numericView (run_full_workflow g1 sales evs surge etab ctab cat d) =
      numericView (run_full_workflow g2 sales evs surge etab ctab cat d) := by
  unfold run_full_workflow
  rcases hf : getForecastCore sales evs surge cat d with e | f
  · simp [forecasting_node, getForecast, hf, Except.map, replenishment_node,
      pricing_node, initialState, numericView]
  · have hpy : pyIn "failed" "running" = false := by decide
    have hpy2 : pyIn "failed" "failed_replenishment" = true := by decide
    simp only [forecasting_node, getForecast, hf, Except.map, initialState]
    rcases hr : runReplenishmentCore (buildReplInput f) with e2 | rn
    · simp [replenishment_node, runReplenishment, hr, Except.map,
        pricing_node, hpy2, numericView]
    · simp only [replenishment_node, runReplenishment, hr, Except.map]
      rcases hp : runPricingCore etab ctab
          { category := cat, current_price := some (defaultPrice cat),
            forecasted_demand := some f.final_forecast,
            inventory_level := some (pricingInventoryDefault cat),
            target_profit_pct := some 0 } with e3 | pn
      · simp [pricing_node, runPricing, hp, Except.map, hpy, numericView]
      · simp [pricing_node, runPricing, hp, Except.map, hpy, numericView]

end RetailOps
